import Mathlib

/-
Verification of the interrupt/exception dispatch core of the
MambaDev/operating-system kernel, shallowly embedded from the Rust sources.
Machine integers (u8) are modelled as Nat with explicit wrap-around
(% 256) where the source's arithmetic can overflow (release-mode wrapping
semantics).  Hardware I/O is modelled as a trace of port events; values
returned by port reads are parameters of the embedding.
-/

namespace OS

/-- Command sent to begin PIC initialization (src/src/std/pic8259.rs, `CMD_INIT`). -/
def CMD_INIT : Nat := 0x11

/-- Command sent to acknowledge an interrupt (src/src/std/pic8259.rs, `CMD_END_OF_INTERRUPT`). -/
def CMD_END_OF_INTERRUPT : Nat := 0x20

/-- The mode in which the PICs run (src/src/std/pic8259.rs, `MODE_8086`). -/
def MODE_8086 : Nat := 0x01

/-- An observable I/O-port event: a read of a port returning a value supplied
by the hardware environment, or a write of a value to a port. -/
inductive PEv where
  | read (port : Nat) (val : Nat)
  | write (port : Nat) (val : Nat)
deriving DecidableEq

/-- An individual PIC chip (src/src/std/pic8259.rs, `struct Pic`): the base
vector offset, the command I/O port and the data I/O port. -/
structure Pic where
  offset : Nat
  command : Nat
  data : Nat
deriving DecidableEq

/-- `Pic::handles_interrupt` (pic8259.rs lines 52-54):
`self.offset <= interrupt_id && interrupt_id < self.offset + 8`.
All quantities are u8; the sum `self.offset + 8` wraps modulo 256 when it
overflows (release-mode Rust semantics), hence the explicit `% 256`. -/
def Pic.handles_interrupt (p : Pic) (interrupt_id : Nat) : Bool :=
  decide (p.offset ≤ interrupt_id) && decide (interrupt_id < (p.offset + 8) % 256)

/-- `Pic::end_of_interrupt` (pic8259.rs lines 58-60): writes the
end-of-interrupt command to this PIC's command port. -/
def Pic.end_of_interrupt (p : Pic) : List PEv :=
  [PEv.write p.command CMD_END_OF_INTERRUPT]

/-- A pair of chained PIC controllers (pic8259.rs, `struct ChainedPics`).
The source stores `pics: [Pic; 2]`; the two array slots are the fields
`pic0` (primary) and `pic1` (secondary). -/
structure ChainedPics where
  pic0 : Pic
  pic1 : Pic
deriving DecidableEq

/-- `ChainedPics::new` (pic8259.rs lines 71-86), exactly as written in the
source: BOTH array slots are built with `offset: offset_one` and with ports
`0x20` / `0x21`; the `offset_two` parameter is never used. -/
def ChainedPics.new (offset_one offset_two : Nat) : ChainedPics :=
  { pic0 := { offset := offset_one, command := 0x20, data := 0x21 },
    pic1 := { offset := offset_one, command := 0x20, data := 0x21 } }

/-- `ChainedPics::handles_interrupt` (pic8259.rs lines 135-137):
`self.pics.iter().any(|p| p.handles_interrupt(interrupt_id))`.
(The source body names the argument `interrupt_id` while the parameter is
declared `interrupt`; the intended parameter is used here.) -/
def ChainedPics.handles_interrupt (cp : ChainedPics) (interrupt : Nat) : Bool :=
  cp.pic0.handles_interrupt interrupt || cp.pic1.handles_interrupt interrupt

/-- `ChainedPics::notify_end_of_interrupt` (pic8259.rs lines 142-149) as the
trace of port writes it performs: if the pair handles the vector, first the
secondary's end-of-interrupt when the secondary owns it, then
unconditionally the primary's end-of-interrupt; otherwise nothing. -/
def ChainedPics.notify_end_of_interrupt (cp : ChainedPics) (interrupt_id : Nat) : List PEv :=
  if cp.handles_interrupt interrupt_id then
    (if cp.pic1.handles_interrupt interrupt_id then cp.pic1.end_of_interrupt else [])
      ++ cp.pic0.end_of_interrupt
  else []

/-- `ChainedPics::initialize` (pic8259.rs lines 91-132) as its trace of port
events.  `saved_mask_one` / `saved_mask_two` are the values the two data-port
reads return.  `wait` is the junk write to port 0x80; `write_pics` writes a
byte to each command port with a wait after each.  The final two events are
the source's mask-restore writes, which the source sends to the COMMAND
ports (`self.pics[i].command.write(saved_mask_i)`). -/
def ChainedPics.initTrace (cp : ChainedPics) (saved_mask_one saved_mask_two : Nat) : List PEv :=
  let wait : List PEv := [PEv.write 0x80 0]
  let write_pics : Nat → Nat → List PEv := fun first second =>
    [PEv.write cp.pic0.command first] ++ wait ++ [PEv.write cp.pic1.command second] ++ wait
  [PEv.read cp.pic0.data saved_mask_one, PEv.read cp.pic1.data saved_mask_two]
    ++ write_pics CMD_INIT CMD_INIT
    ++ write_pics cp.pic0.offset cp.pic1.offset
    ++ write_pics 4 2
    ++ write_pics MODE_8086 MODE_8086
    ++ [PEv.write cp.pic0.command saved_mask_one, PEv.write cp.pic1.command saved_mask_two]

/-- `PIC_1_OFFSET` (src/src/std/interrupts.rs line 47). -/
def PIC_1_OFFSET : Nat := 32

/-- `PIC_2_OFFSET` (interrupts.rs line 48): `PIC_1_OFFSET + 8`. -/
def PIC_2_OFFSET : Nat := PIC_1_OFFSET + 8

/-- The `PICS` static (interrupts.rs lines 57-58):
`ChainedPics::new(PIC_1_OFFSET, PIC_2_OFFSET)`. -/
def PICS : ChainedPics := ChainedPics.new PIC_1_OFFSET PIC_2_OFFSET

/-- `InterruptIndex::Timer` (interrupts.rs line 27): `PIC_1_OFFSET`. -/
def InterruptIndex.Timer : Nat := PIC_1_OFFSET

/-- `InterruptIndex::Keyboard` (interrupts.rs line 29): `PIC_1_OFFSET + 1`. -/
def InterruptIndex.Keyboard : Nat := PIC_1_OFFSET + 1

/-- How a handler invocation ends: it returns normally to the interrupted
code, it enters `htl_loop` (an endless `hlt` loop, interrupts.rs lines
13-17), or it enters the bare `loop \x7b\x7d` of the panic handler
(src/src/std/panic.rs line 16).  The latter two never return. -/
inductive HandlerExit where
  | returns
  | haltLoop
  | loopForever
deriving DecidableEq

/-- The observable effect of one handler invocation: the lines it prints to
the output sink, and how it ends. -/
structure HandlerRun where
  output : List String
  exit : HandlerExit
deriving DecidableEq

/-- `htl_loop` (interrupts.rs lines 13-17): `loop \x7b hlt() \x7d`, a
diverging idle loop; its observable exit classification. -/
def htl_loop : HandlerExit := HandlerExit.haltLoop

/-- `page_fault_handler` (interrupts.rs lines 209-218): prints the four
diagnostic lines (banner, accessed address read from CR2, error code, stack
frame) and then calls `htl_loop()`, never returning.  `cr2`, `error_code`
and `stack_frame` are the formatted values of the corresponding runtime
data. -/
def page_fault_handler (stack_frame : String) (error_code : String) (cr2 : String) : HandlerRun :=
  { output := ["EXCEPTION: PAGE FAULT",
               "Accessed Address: " ++ cr2,
               "Error Code: " ++ error_code,
               "Stack Frame: " ++ stack_frame],
    exit := htl_loop }

/-- The kernel panic handler (src/src/std/panic.rs lines 12-17, the
non-test build): prints the panic info and then spins in `loop \x7b\x7d`. -/
def panic_handler (info : String) : HandlerRun :=
  { output := [info], exit := HandlerExit.loopForever }

/-- `double_fault_handler` (interrupts.rs lines 144-149): its whole body is
a panic with the message `EXCEPTION: DOUBLE FAULT` followed by the formatted
stack frame, so its behavior is that of the panic handler on that message. -/
def double_fault_handler (stack_frame : String) (error_code : Nat) : HandlerRun :=
  panic_handler ("EXCEPTION: DOUBLE FAULT\n" ++ stack_frame)

/-- One step of the kernel init sequence (src/src/lib.rs lines 28-46). -/
inductive InitStep where
  | gdtInit
  | idtLoad
  | picsInit
  | enableInterrupts
deriving DecidableEq

/-- `init` (src/src/lib.rs lines 28-46), in source order:
`std::gdt::init()`, then `std::interrupts::init_idt()` (which loads the
IDT), then `PICS.lock().initialize()`, then
`x86_64::instructions::interrupts::enable()`. -/
def init : List InitStep :=
  [InitStep.gdtInit, InitStep.idtLoad, InitStep.picsInit, InitStep.enableInterrupts]

/-- The handlers registered into the IDT (interrupts.rs lines 60-86). -/
inductive HandlerTag where
  | breakpoint
  | pageFault
  | doubleFault
  | timer
  | keyboard
deriving DecidableEq

/-- One registered IDT entry: the vector it is installed at, the handler,
and the optional interrupt-stack-table index override set through
`set_stack_index`. -/
structure IdtEntry where
  vector : Nat
  handler : HandlerTag
  stackIndex : Option Nat
deriving DecidableEq

/-- Modelled from the spec: `src/src/std/gdt.rs` is not among the sources
(only its callers are).  Per spec section 4.1, the Segment/Stack Builder
allocates one dedicated double-fault stack and publishes its opaque
stack-selector index, consumed only by the trap-table builder; the concrete
value is immaterial to the claims and is modelled as slot 0 of the 7-slot
interrupt stack table. -/
def DOUBLE_FAULT_IST_INDEX : Nat := 0

/-- The `IDT` static (interrupts.rs lines 60-86) as the list of entries it
registers, in source order: breakpoint (x86 vector 3), page fault (x86
vector 14), double fault (x86 vector 8, the only `set_stack_index` call,
with `gdt::DOUBLE_FAULT_IST_INDEX`), timer (`InterruptIndex::Timer`), and
PS/2 keyboard (`InterruptIndex::Keyboard`). -/
def IDT : List IdtEntry :=
  [ { vector := 3, handler := HandlerTag.breakpoint, stackIndex := none },
    { vector := 14, handler := HandlerTag.pageFault, stackIndex := none },
    { vector := 8, handler := HandlerTag.doubleFault, stackIndex := some DOUBLE_FAULT_IST_INDEX },
    { vector := InterruptIndex.Timer, handler := HandlerTag.timer, stackIndex := none },
    { vector := InterruptIndex.Keyboard, handler := HandlerTag.keyboard, stackIndex := none } ]

/-- The two shared output sinks guarded by spin locks: the VGA writer
(`WRITER` in src/src/std/vga_buffer.rs) and the serial port (`SERIAL1` in
src/src/std/serial.rs). -/
inductive Sink where
  | vga
  | serial
deriving DecidableEq

/-- A lock/output event of a print path.  Each event records the CPU
interrupt-enable flag at the moment it happens, so the theorems can speak
about the flag state during lock acquisition and release. -/
inductive LockEv where
  | acquire (lock : Sink) (intEnabled : Bool)
  | release (lock : Sink) (intEnabled : Bool)
  | output (lock : Sink)
deriving DecidableEq

/-- The execution state threaded through a print path: the CPU
interrupt-enable flag and the trace of lock/output events so far. -/
structure IState where
  intEnabled : Bool
  events : List LockEv
deriving DecidableEq

/-- Append one event to the trace. -/
def emit (e : LockEv) (s : IState) : IState :=
  { s with events := s.events ++ [e] }

/-- `x86_64::instructions::interrupts::without_interrupts` (used by both
print paths): save the current interrupt-enable flag, clear it for the
duration of the closure, and restore the saved value when the closure
exits. -/
def without_interrupts (body : IState → IState) (s : IState) : IState :=
  let saved := s.intEnabled
  let s1 := body { s with intEnabled := false }
  { s1 with intEnabled := saved }

/-- `_print` in src/src/std/vga_buffer.rs (lines 202-218): inside
`without_interrupts`, lock `WRITER`, write the formatted text, and release
the lock when the closure scope ends. -/
def vga_print (s : IState) : IState :=
  without_interrupts (fun t =>
    let t1 := emit (LockEv.acquire Sink.vga t.intEnabled) t
    let t2 := emit (LockEv.output Sink.vga) t1
    emit (LockEv.release Sink.vga t2.intEnabled) t2) s

/-- `_print` in src/src/std/serial.rs (lines 35-49): inside
`without_interrupts`, lock `SERIAL1`, write the formatted text, and release
the lock when the closure scope ends. -/
def serial_print (s : IState) : IState :=
  without_interrupts (fun t =>
    let t1 := emit (LockEv.acquire Sink.serial t.intEnabled) t
    let t2 := emit (LockEv.output Sink.serial) t1
    emit (LockEv.release Sink.serial t2.intEnabled) t2) s

/-- A lock operation (acquire or release) is performed with interrupts
disabled; output events are unconstrained. -/
def lockOpsDisabled : LockEv → Bool
  | LockEv.acquire _ f => !f
  | LockEv.release _ f => !f
  | LockEv.output _ => true

/-- Claim C1, evidence of the code defect: the `PICS` construction
`ChainedPics::new(PIC_1_OFFSET, PIC_2_OFFSET)` yields two controller
instances that are identical - both have offset 32, command port 0x20 and
data port 0x21 (the `offset_two` argument is dropped) - so the two port
pairs and the two configured offsets are NOT distinct, and the two 8-wide
ownership ranges coincide (both controllers own vector 32) instead of being
disjoint. -/
theorem c1_pics_controllers_identical :
    PICS.pic0 = PICS.pic1 ∧
    PICS.pic0.offset = 32 ∧ PICS.pic1.offset = 32 ∧
    PICS.pic0.command = 0x20 ∧ PICS.pic1.command = 0x20 ∧
    PICS.pic0.data = 0x21 ∧ PICS.pic1.data = 0x21 ∧
    PICS.pic0.handles_interrupt 32 = true ∧
    PICS.pic1.handles_interrupt 32 = true := by
  decide

/-- Claim C2, counterexample to the claim as stated: at a concrete page
fault, the page-fault handler does not return normally to the interrupted
code - its body ends in `htl_loop()`. -/
theorem c2_counterexample :
    (page_fault_handler "frame" "code" "addr").exit ≠ HandlerExit.returns := by
  decide

/-- Claim C2 as amended: for every page fault, the handler prints the
diagnostic context (banner, accessed address, error code, stack frame) and
then enters the idle halt loop, never returning to the interrupted code. -/
theorem c2_page_fault_prints_then_idles (stack_frame error_code cr2 : String) :
    (page_fault_handler stack_frame error_code cr2).output =
      ["EXCEPTION: PAGE FAULT",
       "Accessed Address: " ++ cr2,
       "Error Code: " ++ error_code,
       "Stack Frame: " ++ stack_frame] ∧
    (page_fault_handler stack_frame error_code cr2).exit = HandlerExit.haltLoop ∧
    (page_fault_handler stack_frame error_code cr2).exit ≠ HandlerExit.returns := by
  refine ⟨rfl, rfl, by simp [page_fault_handler, htl_loop]⟩

/-- Claim C3, evidence of the code defect: in the trace of
`ChainedPics::initialize` on the `PICS` pair (with the two data-port reads
returning 0xFD and 0xAB), the saved masks are read from the data port 0x21,
but the two final restore events write them to the COMMAND port 0x20; no
write of either saved value to the data port it was read from occurs
anywhere in the trace, so the mask register is not restored. -/
theorem c3_masks_restored_to_command_port :
    (PICS.initTrace 0xFD 0xAB).head? = some (PEv.read 0x21 0xFD) ∧
    (PICS.initTrace 0xFD 0xAB)[1]? = some (PEv.read 0x21 0xAB) ∧
    (PICS.initTrace 0xFD 0xAB)[18]? = some (PEv.write 0x20 0xFD) ∧
    (PICS.initTrace 0xFD 0xAB).getLast? = some (PEv.write 0x20 0xAB) ∧
    PEv.write 0x21 0xFD ∉ PICS.initTrace 0xFD 0xAB ∧
    PEv.write 0x21 0xAB ∉ PICS.initTrace 0xFD 0xAB := by
  decide

/-- Claim C4: for every controller pair and every vector the secondary
controller owns, `notify_end_of_interrupt` emits exactly the secondary
controller's end-of-interrupt command strictly before the primary
controller's end-of-interrupt command, and both are emitted. -/
theorem c4_secondary_eoi_first (cp : ChainedPics) (v : Nat)
    (h : cp.pic1.handles_interrupt v = true) :
    cp.notify_end_of_interrupt v =
      [PEv.write cp.pic1.command CMD_END_OF_INTERRUPT,
       PEv.write cp.pic0.command CMD_END_OF_INTERRUPT] := by
  simp [ChainedPics.notify_end_of_interrupt, ChainedPics.handles_interrupt,
        Pic.end_of_interrupt, h]

/-- Witness for C4: vector 35 is owned by the secondary slot of `PICS`, and
acknowledging it emits the secondary's end-of-interrupt write before the
primary's. -/
theorem c4_witness :
    PICS.pic1.handles_interrupt 35 = true ∧
    PICS.notify_end_of_interrupt 35 =
      [PEv.write PICS.pic1.command CMD_END_OF_INTERRUPT,
       PEv.write PICS.pic0.command CMD_END_OF_INTERRUPT] :=
  ⟨by decide, c4_secondary_eoi_first PICS 35 (by decide)⟩

/-- Claim C5: in the kernel init sequence, the interrupt-enable action
occurs exactly once, it is the final step, and the GDT init, the IDT load
and the controller-pair init all occur strictly before it. -/
theorem c5_enable_once_and_last :
    init.getLast? = some InitStep.enableInterrupts ∧
    init.count InitStep.enableInterrupts = 1 ∧
    init.dropLast.count InitStep.enableInterrupts = 0 ∧
    InitStep.gdtInit ∈ init.dropLast ∧
    InitStep.idtLoad ∈ init.dropLast ∧
    InitStep.picsInit ∈ init.dropLast := by
  decide

/-- Claim C6: for every invocation, the double-fault handler routes through
the panic path with the double-fault diagnostic message, emits a non-empty
diagnostic dump, and ends in the panic handler's forever loop - it never
returns to the interrupted context. -/
theorem c6_double_fault_never_returns (stack_frame : String) (error_code : Nat) :
    double_fault_handler stack_frame error_code =
      panic_handler ("EXCEPTION: DOUBLE FAULT\n" ++ stack_frame) ∧
    (double_fault_handler stack_frame error_code).output ≠ [] ∧
    (double_fault_handler stack_frame error_code).exit = HandlerExit.loopForever ∧
    (double_fault_handler stack_frame error_code).exit ≠ HandlerExit.returns := by
  refine ⟨rfl, by simp [double_fault_handler, panic_handler], rfl,
    by simp [double_fault_handler, panic_handler]⟩

/-- Claim C7: the double-fault entry of the built IDT is registered with the
dedicated stack index published by the segment/stack builder, and it is the
only registered entry whose stack-selector override is set. -/
theorem c7_double_fault_only_stack_override :
    IdtEntry.mk 8 HandlerTag.doubleFault (some DOUBLE_FAULT_IST_INDEX) ∈ IDT ∧
    (∀ e ∈ IDT, e.stackIndex.isSome = true ↔ e.handler = HandlerTag.doubleFault) := by
  decide

/-- Claim C8, counterexample to the claim as stated: for a controller with
offset 255, vector 255 satisfies `offset ≤ 255 < offset + 8` mathematically,
yet `handles_interrupt` returns false, because the u8 sum `offset + 8` wraps
to 7. -/
theorem c8_counterexample :
    Pic.handles_interrupt { offset := 255, command := 0x20, data := 0x21 } 255 = false ∧
    255 ≤ 255 ∧ 255 < 255 + 8 := by
  decide

/-- Claim C8 as amended: for every controller whose offset keeps
`offset + 8` inside the 8-bit range (offset ≤ 247), and every vector `v`,
the ownership test returns true iff `offset ≤ v < offset + 8`. -/
theorem c8_handles_interrupt_iff (p : Pic) (hno : p.offset + 8 < 256) (v : Nat) :
    p.handles_interrupt v = true ↔ (p.offset ≤ v ∧ v < p.offset + 8) := by
  unfold Pic.handles_interrupt
  rw [Nat.mod_eq_of_lt hno]
  simp

/-- Witness for C8: the primary controller with the standard offset 32 owns
vector 35. -/
theorem c8_witness :
    32 + 8 < 256 ∧
    (Pic.handles_interrupt { offset := 32, command := 0x20, data := 0x21 } 35 = true ↔
      (32 ≤ 35 ∧ 35 < 32 + 8)) :=
  ⟨by decide,
   c8_handles_interrupt_iff { offset := 32, command := 0x20, data := 0x21 } (by decide) 35⟩

/-- Claim C9: whatever the incoming interrupt-enable state, each print path
(VGA and serial) restores that state on exit, and every lock acquisition and
release it performs happens while interrupts are disabled - the trace is
exactly acquire/write/release, all inside the disabled section. -/
theorem c9_print_lock_discipline (b : Bool) :
    ((vga_print { intEnabled := b, events := [] }).intEnabled = b ∧
     (vga_print { intEnabled := b, events := [] }).events =
       [LockEv.acquire Sink.vga false, LockEv.output Sink.vga,
        LockEv.release Sink.vga false] ∧
     ((vga_print { intEnabled := b, events := [] }).events.all lockOpsDisabled) = true) ∧
    ((serial_print { intEnabled := b, events := [] }).intEnabled = b ∧
     (serial_print { intEnabled := b, events := [] }).events =
       [LockEv.acquire Sink.serial false, LockEv.output Sink.serial,
        LockEv.release Sink.serial false] ∧
     ((serial_print { intEnabled := b, events := [] }).events.all lockOpsDisabled) = true) := by
  cases b <;> decide

/-- Claim C10: for every controller pair and every vector owned by neither
controller, `notify_end_of_interrupt` performs no port I/O at all - its
event trace is empty. -/
theorem c10_unowned_vector_no_io (cp : ChainedPics) (v : Nat)
    (h0 : cp.pic0.handles_interrupt v = false)
    (h1 : cp.pic1.handles_interrupt v = false) :
    cp.notify_end_of_interrupt v = [] := by
  simp [ChainedPics.notify_end_of_interrupt, ChainedPics.handles_interrupt, h0, h1]

/-- Witness for C10: vector 100 is owned by neither slot of `PICS`, and
acknowledging it emits no port events. -/
theorem c10_witness :
    PICS.pic0.handles_interrupt 100 = false ∧
    PICS.pic1.handles_interrupt 100 = false ∧
    PICS.notify_end_of_interrupt 100 = [] :=
  ⟨by decide, by decide, c10_unowned_vector_no_io PICS 100 (by decide) (by decide)⟩

end OS
